import Mathlib

/-!
Verification of the MDunitz/randomScripts mineral-map utilities.

The development shallowly embeds the coordinate transform and the
categorical styling logic of the repository:

* the Web Mercator projection `lat_lon_to_web_mercator`, defined identically
  in plotting_utils.py (lines 14-20), maps.py (lines 19-26),
  critical_minerals_map.py (lines 15-22) and ree_grant_map.py, with the
  Earth radius constant from constants.py (line 96);
* the color/size lookup tables and fallback defaults of maps.py
  (lines 173-231 and 241-255) and critical_minerals_map.py (lines 99-134);
* the per-file CSV loading loop of critical_minerals_map.py (lines 40-51).

Real-valued arithmetic of the Python code (IEEE-754 doubles) is embedded as
exact real arithmetic over `ℝ`; string and table manipulation is embedded
executably so concrete instances evaluate by `decide` or `rfl`.
-/

open Real

namespace WebMercator

/-- Earth radius in meters: `EARTH_RADIUS_METERS = 6378137.0` from
constants.py line 96; the same literal appears inline as `r` in
maps.py, critical_minerals_map.py and ree_grant_map.py. -/
noncomputable def EARTH_RADIUS_METERS : ℝ := 6378137.0

/-- Embedding of `np.radians`: convert degrees to radians. -/
noncomputable def radians (d : ℝ) : ℝ := d * (π / 180)

/-- Embedding of `lat_lon_to_web_mercator` (plotting_utils.py lines 14-20):
`lat_rad = np.radians(lat)`, `lon_rad = np.radians(lon)`,
`x = EARTH_RADIUS_METERS * lon_rad`,
`y = EARTH_RADIUS_METERS * np.log(np.tan(np.pi/4 + lat_rad/2))`. -/
noncomputable def lat_lon_to_web_mercator (lat lon : ℝ) : ℝ × ℝ :=
  let lat_rad := radians lat
  let lon_rad := radians lon
  let x := EARTH_RADIUS_METERS * lon_rad
  let y := EARTH_RADIUS_METERS * Real.log (Real.tan (π / 4 + lat_rad / 2))
  (x, y)

/-- Elementwise (numpy-broadcast) application of the projection to
equal-length coordinate arrays, as used in critical_minerals_map.py
lines 83-96 on `np.array` inputs. -/
noncomputable def lat_lon_to_web_mercator_vec (lats lons : List ℝ) :
    List ℝ × List ℝ :=
  ((lats.zip lons).map fun p => (lat_lon_to_web_mercator p.1 p.2).1,
   (lats.zip lons).map fun p => (lat_lon_to_web_mercator p.1 p.2).2)

/-- The projection formula exactly as the specification states it in section
4.1: `x = R * lambda_radians` and `y = R * ln (tan (pi/4 + phi_radians/2))`
with `R = 6378137.0`.  This definition follows the words of the spec and is
compared with the source embedding above. -/
noncomputable def webMercatorSpecFormula (phi lam : ℝ) : ℝ × ℝ :=
  (6378137.0 * (lam * (π / 180)),
   6378137.0 * Real.log (Real.tan (π / 4 + (phi * (π / 180)) / 2)))

end WebMercator

/-! Character-level embeddings of the Python string operations used by the
styling code: `str.split(',')[0]`, `str.strip()` and the substring test
`"Superfund" in status`. -/

/-- Embedding of Python `str.split(sep)` for a one-character separator:
splits the character list at every occurrence of `sep`; always returns at
least one (possibly empty) piece, like Python `split`. -/
def splitOnChar (sep : Char) : List Char → List (List Char)
  | [] => [[]]
  | c :: rest =>
    let r := splitOnChar sep rest
    if c == sep then [] :: r
    else (c :: r.headD []) :: r.tail

/-- Embedding of Python `str.strip()`: drop whitespace from both ends. -/
def stripCh (l : List Char) : List Char :=
  ((l.dropWhile Char.isWhitespace).reverse.dropWhile Char.isWhitespace).reverse

/-- Helper for the substring test: does `needle` start `hay`? -/
def leadsList (needle hay : List Char) : Bool :=
  match needle, hay with
  | [], _ => true
  | _ :: _, [] => false
  | a :: as, b :: bs => a == b && leadsList as bs

/-- Embedding of the Python substring test `needle in hay` on strings. -/
def containsSubCh (needle : List Char) : List Char → Bool
  | [] => needle.isEmpty
  | c :: rest => leadsList needle (c :: rest) || containsSubCh needle rest

/-- String wrapper for the Python substring test `needle in hay`. -/
def containsSub (needle hay : String) : Bool :=
  containsSubCh needle.toList hay.toList

/-- Embedding of a Python dict literal as an association list together with
`dict` lookup: `m.get(k)` is the value of the first pair whose key is `k`
(the literals below have no duplicate keys, so this is exact). -/
def dictGet {α : Type} (m : List (String × α)) (k : String) : Option α :=
  (m.find? fun p => p.1 == k).map fun p => p.2

/-- Keys of an embedded dict, for Python `k in m`. -/
def dictKeys {α : Type} (m : List (String × α)) : List String :=
  m.map Prod.fst

/-- A site record as destructured by the row loops of maps.py:
`(name, lat, lon, elements, type, status, notes)`.  The coordinate literals
of the hardcoded datasets are exact decimals, carried here as rationals. -/
structure Site where
  name : String
  lat : ℚ
  lon : ℚ
  elements : String
  type : String
  status : String
  notes : String

namespace Maps

/-- The `element_colors` dict of maps.py lines 173-191. -/
def element_colors : List (String × String) :=
  [("Tungsten", "#E63946"),
   ("Antimony", "#F4A261"),
   ("Graphite", "#2A2A2A"),
   ("Chromium", "#457B9D"),
   ("Manganese", "#9B2335"),
   ("Gallium", "#7209B7"),
   ("Germanium", "#3A0CA3"),
   ("Niobium", "#4361EE"),
   ("Tantalum", "#4CC9F0"),
   ("Tin", "#90BE6D"),
   ("Scandium", "#F72585"),
   ("Yttrium", "#B5179E"),
   ("Magnesium", "#06D6A0"),
   ("Fluorine", "#FFD166"),
   ("Bismuth", "#118AB2"),
   ("Arsenic", "#DC2F02"),
   ("Multi-element", "#6C757D")]

/-- Embedding of `elements.split(',')[0].strip()` (maps.py line 219). -/
def primaryOf (elements : String) : String :=
  (stripCh ((splitOnChar ',' elements.toList).headD [])).asString

/-- Embedding of maps.py lines 220-223: if the primary element is a key of
`element_colors` use its color, otherwise
`element_colors.get("Multi-element", "#6C757D")`. -/
def resolveDepositColor (primary : String) : String :=
  match dictGet element_colors primary with
  | some c => c
  | none => (dictGet element_colors "Multi-element").getD "#6C757D"

/-- The full deposit color computation of maps.py lines 219-223. -/
def depositColorOf (elements : String) : String :=
  resolveDepositColor (primaryOf elements)

/-- Embedding of maps.py lines 226-231: size 18 for "Operating", 15 for
"Development", otherwise 12. -/
def depositSizeOf (status : String) : Nat :=
  if status == "Operating" then 18
  else if status == "Development" then 15
  else 12

/-- Per-row contamination color, maps.py line 250: the constant string
`"#DC2F02"` is appended for every row, whatever the row holds. -/
def contamRowColor (_s : Site) : String := "#DC2F02"

/-- Per-row contamination size, maps.py lines 252-255:
16 if `"Superfund" in status` else 12. -/
def contamSizeOf (status : String) : Nat :=
  if containsSub "Superfund" status then 16 else 12

/-- The hardcoded `contamination_sites` list of maps.py lines 129-158. -/
def contamination_sites : List Site :=
  [⟨"Bunker Hill Superfund", 47.55, -116.15, "Arsenic, Lead, Cadmium",
    "Mining/Smelting", "Cleanup Ongoing", "ID - 1,500 sq mi, one of largest Superfund sites"⟩,
   ⟨"Iron King Mine Superfund", 34.45, -112.25, "Arsenic, Lead",
    "Mining", "Cleanup Ongoing", "AZ - Dewey-Humboldt"⟩,
   ⟨"Summitville Mine", 37.42, -106.60, "Arsenic, Heavy Metals",
    "Mining", "Superfund", "CO - Acid mine drainage disaster"⟩,
   ⟨"California Gulch", 39.25, -106.30, "Arsenic, Lead, Zinc",
    "Mining/Smelting", "Superfund", "CO - Leadville historic mining"⟩,
   ⟨"Colorado Smelter", 38.28, -104.60, "Arsenic, Lead",
    "Smelting", "Superfund", "CO - Pueblo residential contamination"⟩,
   ⟨"Arsenic Mine Kent NY", 41.45, -73.70, "Arsenic",
    "Mining", "Superfund", "NY - Historic arsenic mine"⟩,
   ⟨"Brinton Mine", 37.05, -80.35, "Arsenic",
    "Mining", "Historic", "VA - Floyd County, only VA arsenic producer"⟩,
   ⟨"Gold Hill District", 40.50, -112.05, "Arsenic",
    "Mining", "Historic Producer", "UT - Tooele County, WWI-WWII As production"⟩,
   ⟨"Kennecott North Zone", 40.75, -112.15, "Arsenic, Lead, Heavy Metals",
    "Mining/Smelting", "Superfund", "UT - Salt Lake Valley contamination"⟩,
   ⟨"Eureka Mills", 39.95, -112.12, "Arsenic, Lead",
    "Mining/Smelting", "Superfund", "UT - Historic mining town"⟩,
   ⟨"Davenport Smelter", 40.57, -111.85, "Arsenic, Lead",
    "Smelting", "Superfund", "UT - Sandy, residential contamination"⟩,
   ⟨"Clear Creek/Central City", 39.80, -105.52, "Arsenic, Lead, Zinc",
    "Mining", "Superfund", "CO - Historic gaming towns"⟩,
   ⟨"Captain Jack Mill", 40.07, -105.52, "Arsenic, Heavy Metals",
    "Mining", "Superfund", "CO - Boulder County watershed"⟩,
   ⟨"Midvale Slag", 40.62, -111.90, "Arsenic, Lead",
    "Smelting", "Superfund", "UT - Sharon Steel site"⟩,
   ⟨"Hinkley CA", 34.93, -117.18, "Chromium VI",
    "Industrial", "Contaminated", "CA - PG&E, famous Erin Brockovich case"⟩,
   ⟨"Chrome Plating Sites", 33.95, -118.25, "Chromium VI",
    "Industrial", "Various", "CA - Multiple LA area sites"⟩,
   ⟨"Jersey City Cr Sites", 40.73, -74.08, "Chromium",
    "Industrial", "Superfund", "NJ - Multiple chrome processing sites"⟩,
   ⟨"Tar Creek", 36.98, -94.85, "Lead, Zinc, Cadmium",
    "Mining", "Superfund", "OK - Tri-State Mining District"⟩,
   ⟨"Coeur d\x27Alene Basin", 47.55, -116.15, "Lead, Arsenic, Zinc, Cadmium",
    "Mining", "Superfund", "ID - Silver Valley, extensive contamination"⟩,
   ⟨"Anaconda Smelter", 46.12, -112.95, "Arsenic, Lead, Heavy Metals",
    "Smelting", "Superfund", "MT - 300+ sq miles affected"⟩,
   ⟨"Silver Bow Creek/Butte", 46.02, -112.52, "Arsenic, Lead, Copper, Zinc",
    "Mining", "Superfund", "MT - Berkeley Pit, historic mining"⟩,
   ⟨"Blackbird Mine", 45.10, -114.42, "Arsenic, Cobalt, Copper",
    "Mining", "Superfund", "ID - Lemhi County"⟩,
   ⟨"Yellow Pine Pit", 44.93, -115.35, "Arsenic, Antimony",
    "Mining", "Remediation Planned", "ID - Legacy contamination at Stibnite"⟩]

/-- The `color` column built by the contamination loop (maps.py line 250). -/
def contam_colors : List String :=
  contamination_sites.map contamRowColor

/-- The `size` column built by the contamination loop (maps.py 252-255). -/
def contam_sizes : List Nat :=
  contamination_sites.map fun s => contamSizeOf s.status

end Maps

namespace CriticalMineralsMap

/-- The `element_colors` dict of critical_minerals_map.py lines 99-120. -/
def element_colors : List (String × String) :=
  [("Tungsten", "#8e44ad"),
   ("Tungsten/Antimony", "#9b59b6"),
   ("Tungsten/Molybdenum", "#6c3483"),
   ("Antimony", "#e74c3c"),
   ("Graphite", "#34495e"),
   ("Chromium/PGM", "#16a085"),
   ("Manganese", "#1abc9c"),
   ("Gallium/Germanium", "#f39c12"),
   ("Niobium/REE", "#d35400"),
   ("Scandium/REE", "#e67e22"),
   ("Tantalum", "#c0392b"),
   ("Tin/Tungsten", "#8e44ad"),
   ("Tin", "#95a5a6"),
   ("Tantalum/Tin", "#7f8c8d"),
   ("Fluorine", "#3498db"),
   ("Fluorine/Beryllium", "#2980b9"),
   ("As/Pb/Zn", "#e74c3c"),
   ("As/Cu", "#c0392b"),
   ("As/Cu/Zn", "#a93226"),
   ("Pb/Zn", "#922b21")]

/-- Embedding of `element_colors.get(e, '#95a5a6')`
(critical_minerals_map.py line 122): the whole element string is the key. -/
def depositColorOf (e : String) : String :=
  (dictGet element_colors e).getD "#95a5a6"

/-- Embedding of `element_colors.get(e, '#e74c3c')`
(critical_minerals_map.py line 123). -/
def contamColorOf (e : String) : String :=
  (dictGet element_colors e).getD "#e74c3c"

/-- The `status_sizes` dict of critical_minerals_map.py lines 126-132. -/
def status_sizes : List (String × Nat) :=
  [("Operating", 16),
   ("Development", 14),
   ("Exploration", 12),
   ("Historic", 10),
   ("Remediation", 18)]

/-- Embedding of `status_sizes.get(s, 10)` (line 133). -/
def depositSizeOf (s : String) : Nat :=
  (dictGet status_sizes s).getD 10

/-- Embedding of `status_sizes.get(s, 18)` (line 134). -/
def contamSizeOf (s : String) : Nat :=
  (dictGet status_sizes s).getD 18

/-- The `csv_files` list of critical_minerals_map.py lines 27-37. -/
def csv_files : List String :=
  ["data/critical_minerals_tungsten.csv",
   "data/critical_minerals_antimony.csv",
   "data/critical_minerals_graphite.csv",
   "data/critical_minerals_chromium_manganese.csv",
   "data/critical_minerals_gallium_germanium.csv",
   "data/critical_minerals_rare_earths.csv",
   "data/critical_minerals_tantalum_tin.csv",
   "data/critical_minerals_fluorine.csv",
   "data/critical_minerals_contamination.csv"]

/-- The warning printed by the `except` branch at line 47:
`print(f"Warning: Could not load {csv_file}: {e}")`. -/
def warnMsg (file err : String) : String :=
  "Warning: Could not load " ++ file ++ ": " ++ err

/-- The success message printed at line 45:
`print(f"Loaded {len(df)} sites from {csv_file}")`. -/
def loadedMsg (n : Nat) (file : String) : String :=
  "Loaded " ++ toString n ++ " sites from " ++ file

/-- State built by the load loop: collected dataframes (each a row list)
and the console messages, in file order. -/
structure LoadAcc (α : Type) where
  dfs : List (List α)
  log : List String

/-- Embedding of the per-file load loop of critical_minerals_map.py
lines 40-47.  The filesystem is the loop's external input, modelled by
`read`: for each file, `pd.read_csv` either returns a dataframe or raises,
and the `except` branch turns the exception into a warning and skips the
file. -/
def loadCsvLoop {α : Type} (read : String → Except String (List α)) :
    List String → LoadAcc α
  | [] => ⟨[], []⟩
  | f :: fs =>
    let rest := loadCsvLoop read fs
    match read f with
    | .ok df => ⟨df :: rest.dfs, loadedMsg df.length f :: rest.log⟩
    | .error e => ⟨rest.dfs, warnMsg f e :: rest.log⟩

/-- Embedding of `pd.concat(dfs, ignore_index=True)` at line 50: pandas
raises `ValueError("No objects to concatenate")` on an empty list and
otherwise concatenates the rows in order. -/
def pdConcat {α : Type} (dfs : List (List α)) : Except String (List α) :=
  if dfs.isEmpty then .error "No objects to concatenate" else .ok dfs.flatten

/-- The combined dataset of lines 40-51: run the load loop over the declared
files, then concatenate whatever loaded. -/
def combinedLoad {α : Type} (read : String → Except String (List α))
    (files : List String) : Except String (List α) :=
  pdConcat (loadCsvLoop read files).dfs

end CriticalMineralsMap

/-- The primary-category selection exactly as the specification words it:
the substring of the category field before the first comma, trimmed of
surrounding whitespace.  Stated independently of the source embedding
`Maps.primaryOf` and compared with it below. -/
def specPrimaryOf (elements : String) : String :=
  (stripCh (elements.toList.takeWhile fun c => c != ',')).asString

/-- A read function used to instantiate the load-failure theorem on a
concrete scenario: exactly one of the declared files loads (with a single
row), every other file is missing. -/
def oneGoodRead : String → Except String (List Nat) := fun f =>
  if f == "data/critical_minerals_tungsten.csv" then Except.ok [1]
  else Except.error "No such file or directory"

/-! Helper lemmas shared by the claim theorems. -/

theorem dictGet_eq_none {α : Type} (m : List (String × α)) (k : String)
    (h : k ∉ dictKeys m) : dictGet m k = none := by
  have hf : m.find? (fun p => p.1 == k) = none := by
    rw [List.find?_eq_none]
    intro p hp hpk
    exact h (List.mem_map.mpr ⟨p, hp, by simpa using hpk⟩)
  simp [dictGet, hf]

theorem splitOnChar_headD (sep : Char) (l : List Char) :
    (splitOnChar sep l).headD [] = l.takeWhile fun c => c != sep := by
  induction l with
  | nil => rfl
  | cons c rest ih =>
    simp only [splitOnChar, List.takeWhile_cons]
    by_cases h : c = sep
    · subst h
      simp
    · have hb1 : (c == sep) = false := by simp [h]
      have hb2 : (c != sep) = true := by simp [h]
      simp [hb1, hb2]
      simpa using ih

theorem loadCsvLoop_dfs {α : Type} (read : String → Except String (List α)) :
    ∀ files : List String,
      (CriticalMineralsMap.loadCsvLoop read files).dfs =
        files.filterMap fun f => (read f).toOption := by
  intro files
  induction files with
  | nil => rfl
  | cons f fs ih =>
    cases h : read f <;>
      simp [CriticalMineralsMap.loadCsvLoop, h, ih, List.filterMap_cons, Except.toOption]

theorem loadCsvLoop_log_warn {α : Type} (read : String → Except String (List α)) :
    ∀ (files : List String) (f e : String), f ∈ files →
      read f = Except.error e →
      CriticalMineralsMap.warnMsg f e ∈
        (CriticalMineralsMap.loadCsvLoop read files).log := by
  intro files
  induction files with
  | nil => intro f e hf _; cases hf
  | cons g fs ih =>
    intro f e hf hre
    rcases List.mem_cons.mp hf with h | h
    · subst h
      simp [CriticalMineralsMap.loadCsvLoop, hre]
    · cases hg : read g <;>
        simp [CriticalMineralsMap.loadCsvLoop, hg, ih f e h hre]

/-! Claim theorems. -/

/-- C1: for every latitude and longitude, given as scalars or as equal-length
arrays applied elementwise, `lat_lon_to_web_mercator` returns exactly
`(R * radians lon, R * log (tan (pi/4 + radians lat / 2)))` with
`R = 6378137.0`, the formula of spec section 4.1; being a pure function of
its arguments, it has no side effects. -/
theorem C1_projection_formula :
    (∀ phi lam : ℝ, WebMercator.lat_lon_to_web_mercator phi lam =
      WebMercator.webMercatorSpecFormula phi lam) ∧
    (∀ lats lons : List ℝ, WebMercator.lat_lon_to_web_mercator_vec lats lons =
      ((lats.zip lons).map fun p => (WebMercator.webMercatorSpecFormula p.1 p.2).1,
       (lats.zip lons).map fun p => (WebMercator.webMercatorSpecFormula p.1 p.2).2)) :=
  ⟨fun _ _ => rfl, fun _ _ => rfl⟩

/-- C2: a categorical label that is not a key of the mapping table in use
resolves to the configured default and never to an error: `#6C757D` in
maps.py; `#95a5a6` for deposit colors and `#e74c3c` for contamination colors
in critical_minerals_map.py; default sizes 10, 18 and 12 per table. -/
theorem C2_style_fallback :
    (∀ s : String, s ∉ dictKeys Maps.element_colors →
      Maps.resolveDepositColor s = "#6C757D") ∧
    (∀ s : String, s ∉ dictKeys CriticalMineralsMap.element_colors →
      CriticalMineralsMap.depositColorOf s = "#95a5a6") ∧
    (∀ s : String, s ∉ dictKeys CriticalMineralsMap.element_colors →
      CriticalMineralsMap.contamColorOf s = "#e74c3c") ∧
    (∀ s : String, s ∉ dictKeys CriticalMineralsMap.status_sizes →
      CriticalMineralsMap.depositSizeOf s = 10) ∧
    (∀ s : String, s ∉ dictKeys CriticalMineralsMap.status_sizes →
      CriticalMineralsMap.contamSizeOf s = 18) ∧
    (∀ s : String, s ≠ "Operating" → s ≠ "Development" →
      Maps.depositSizeOf s = 12) := by
  refine ⟨?_, ?_, ?_, ?_, ?_, ?_⟩
  · intro s hs
    unfold Maps.resolveDepositColor
    rw [dictGet_eq_none _ _ hs]
    rfl
  · intro s hs
    unfold CriticalMineralsMap.depositColorOf
    rw [dictGet_eq_none _ _ hs]
    rfl
  · intro s hs
    unfold CriticalMineralsMap.contamColorOf
    rw [dictGet_eq_none _ _ hs]
    rfl
  · intro s hs
    unfold CriticalMineralsMap.depositSizeOf
    rw [dictGet_eq_none _ _ hs]
    rfl
  · intro s hs
    unfold CriticalMineralsMap.contamSizeOf
    rw [dictGet_eq_none _ _ hs]
    rfl
  · intro s h1 h2
    simp [Maps.depositSizeOf, h1, h2]

/-- Witness for C2 at the concrete unmapped labels "Lithium" and "Unknown". -/
theorem C2_style_fallback_witness :
    "Lithium" ∉ dictKeys Maps.element_colors ∧
    Maps.resolveDepositColor "Lithium" = "#6C757D" ∧
    "Lithium" ∉ dictKeys CriticalMineralsMap.element_colors ∧
    CriticalMineralsMap.depositColorOf "Lithium" = "#95a5a6" ∧
    CriticalMineralsMap.contamColorOf "Lithium" = "#e74c3c" ∧
    "Unknown" ∉ dictKeys CriticalMineralsMap.status_sizes ∧
    CriticalMineralsMap.depositSizeOf "Unknown" = 10 ∧
    CriticalMineralsMap.contamSizeOf "Unknown" = 18 ∧
    Maps.depositSizeOf "Unknown" = 12 :=
  ⟨by decide, C2_style_fallback.1 "Lithium" (by decide), by decide,
   C2_style_fallback.2.1 "Lithium" (by decide),
   C2_style_fallback.2.2.1 "Lithium" (by decide), by decide,
   C2_style_fallback.2.2.2.1 "Unknown" (by decide),
   C2_style_fallback.2.2.2.2.1 "Unknown" (by decide),
   C2_style_fallback.2.2.2.2.2 "Unknown" (by decide) (by decide)⟩

/-- Counterexample to C3 as stated: in critical_minerals_map.py the whole
element string is the lookup key, so "Tungsten, Antimony, Gold" resolves to
the default `#95a5a6` and not to the color `#8e44ad` mapped to "Tungsten". -/
theorem C3_counterexample :
    CriticalMineralsMap.depositColorOf "Tungsten, Antimony, Gold" = "#95a5a6" ∧
    dictGet CriticalMineralsMap.element_colors "Tungsten" = some "#8e44ad" ∧
    (("#95a5a6" : String) == "#8e44ad") = false :=
  ⟨rfl, rfl, rfl⟩

/-- C3 (amended to maps.py, whose loop the claim describes): the color is
selected using only the substring before the first comma, trimmed of
surrounding whitespace, and "Tungsten, Antimony, Gold" resolves to the
Tungsten color `#E63946`. -/
theorem C3_first_token_color :
    (∀ elements : String, Maps.depositColorOf elements =
      Maps.resolveDepositColor (specPrimaryOf elements)) ∧
    Maps.depositColorOf "Tungsten, Antimony, Gold" = "#E63946" := by
  constructor
  · intro e
    unfold Maps.depositColorOf Maps.primaryOf specPrimaryOf
    rw [splitOnChar_headD]
  · rfl

/-- C8: the projection maps the origin to the origin exactly. -/
theorem C8_origin : WebMercator.lat_lon_to_web_mercator 0 0 = (0, 0) := by
  simp only [WebMercator.lat_lon_to_web_mercator, WebMercator.radians]
  norm_num [Real.tan_pi_div_four]

/-- C9: the projection is a pure, deterministic function: two applications
to the same in-range input yield identical outputs. -/
theorem C9_deterministic (lat lon lat2 lon2 : ℝ) (_h1 : -85 < lat)
    (_h2 : lat < 85) (_h3 : -180 ≤ lon) (_h4 : lon ≤ 180)
    (heq1 : lat2 = lat) (heq2 : lon2 = lon) :
    WebMercator.lat_lon_to_web_mercator lat2 lon2 =
      WebMercator.lat_lon_to_web_mercator lat lon := by
  rw [heq1, heq2]

/-- Witness for C9 at the concrete in-range input (45, -93). -/
theorem C9_deterministic_witness :
    WebMercator.lat_lon_to_web_mercator 45 (-93) =
      WebMercator.lat_lon_to_web_mercator 45 (-93) :=
  C9_deterministic 45 (-93) 45 (-93) (by norm_num) (by norm_num)
    (by norm_num) (by norm_num) rfl rfl

/-- C10: in maps.py every contamination row gets the constant color
`#DC2F02` regardless of its elements field, and over the hardcoded
`contamination_sites` dataset the size column is 16 exactly for the rows
whose status contains the substring "Superfund" and 12 otherwise. -/
theorem C10_contamination_styling :
    (∀ s : Site, Maps.contamRowColor s = "#DC2F02") ∧
    Maps.contam_colors = List.replicate 23 "#DC2F02" ∧
    Maps.contam_sizes =
      [12, 12, 16, 16, 16, 16, 12, 12, 16, 16, 16, 16, 16, 16,
       12, 12, 16, 16, 16, 16, 16, 16, 12] :=
  ⟨fun _ => rfl, rfl, rfl⟩

/-- Counterexample to C6 as universally stated: when every declared file
fails to load, each failure is still caught and warned about, but the
concatenation step then raises (pandas on an empty list), so the program
does not continue to a combined dataset. -/
theorem C6_counterexample :
    CriticalMineralsMap.combinedLoad
        (fun _ => (Except.error "No such file or directory" :
          Except String (List Nat)))
        CriticalMineralsMap.csv_files =
      Except.error "No objects to concatenate" := rfl

/-- C6 (amended): every file that fails to load is caught individually and
produces a warning naming the file and the reason; the collected dataframes
are exactly those of the files that loaded, in order; and provided at least
one file loads, the program continues and the combined dataset is the
concatenation of the successfully loaded subset. -/
theorem C6_per_file_load (α : Type) (read : String → Except String (List α))
    (files : List String) :
    (∀ f ∈ files, ∀ e, read f = Except.error e →
      CriticalMineralsMap.warnMsg f e ∈
        (CriticalMineralsMap.loadCsvLoop read files).log) ∧
    ((CriticalMineralsMap.loadCsvLoop read files).dfs =
      files.filterMap fun f => (read f).toOption) ∧
    ((∃ f ∈ files, ∃ df, read f = Except.ok df) →
      CriticalMineralsMap.combinedLoad read files =
        Except.ok (files.filterMap fun f => (read f).toOption).flatten) := by
  refine ⟨fun f hf e he => loadCsvLoop_log_warn read files f e hf he,
          loadCsvLoop_dfs read files, ?_⟩
  rintro ⟨f, hf, df, hdf⟩
  unfold CriticalMineralsMap.combinedLoad CriticalMineralsMap.pdConcat
  rw [loadCsvLoop_dfs read files]
  have hne : (files.filterMap fun f => (read f).toOption) ≠ [] := by
    intro h0
    have h1 := List.filterMap_eq_nil_iff.mp h0 f hf
    rw [hdf] at h1
    cases h1
  simp [List.isEmpty_iff, hne]

/-- Witness for C6 on the declared csv_files list with exactly one loadable
file: the missing antimony file is warned about and skipped, and the
combined dataset is the single loaded row list. -/
theorem C6_per_file_load_witness :
    CriticalMineralsMap.warnMsg "data/critical_minerals_antimony.csv"
        "No such file or directory" ∈
      (CriticalMineralsMap.loadCsvLoop oneGoodRead
        CriticalMineralsMap.csv_files).log ∧
    CriticalMineralsMap.combinedLoad oneGoodRead
        CriticalMineralsMap.csv_files = Except.ok [1] := by
  constructor
  · exact (C6_per_file_load Nat oneGoodRead CriticalMineralsMap.csv_files).1
      "data/critical_minerals_antimony.csv" (by decide)
      "No such file or directory" rfl
  · have h := (C6_per_file_load Nat oneGoodRead CriticalMineralsMap.csv_files).2.2
      ⟨"data/critical_minerals_tungsten.csv", by decide, [1], rfl⟩
    rw [h]
    rfl

/-- C4: applying the standard inverse Mercator formula
`lat = degrees (2 * arctan (exp (y / R)) - pi/2)`, `lon = degrees (x / R)`
to the projected coordinates recovers the original latitude and longitude
within 1e-6 degrees for every latitude in (-85, 85) and longitude in
[-180, 180] (over the reals the round trip is exact). -/
theorem C4_round_trip (lat lon : ℝ) (h1 : -85 < lat) (h2 : lat < 85)
    (_h3 : -180 ≤ lon) (_h4 : lon ≤ 180) :
    |(2 * Real.arctan (Real.exp
        ((WebMercator.lat_lon_to_web_mercator lat lon).2 /
          WebMercator.EARTH_RADIUS_METERS)) - π / 2) * (180 / π) - lat|
      ≤ 1e-6 ∧
    |((WebMercator.lat_lon_to_web_mercator lat lon).1 /
        WebMercator.EARTH_RADIUS_METERS) * (180 / π) - lon| ≤ 1e-6 := by
  have hπ : 0 < π := Real.pi_pos
  have hπne : π ≠ 0 := ne_of_gt hπ
  have hR : WebMercator.EARTH_RADIUS_METERS ≠ 0 := by
    unfold WebMercator.EARTH_RADIUS_METERS; norm_num
  have hx : (WebMercator.lat_lon_to_web_mercator lat lon).1 =
      WebMercator.EARTH_RADIUS_METERS * (lon * (π / 180)) := rfl
  have hy : (WebMercator.lat_lon_to_web_mercator lat lon).2 =
      WebMercator.EARTH_RADIUS_METERS *
        Real.log (Real.tan (π / 4 + lat * (π / 180) / 2)) := rfl
  set θ : ℝ := π / 4 + lat * (π / 180) / 2 with hθ
  have hθpos : 0 < θ := by
    have h90 : θ = (90 + lat) * (π / 360) := by rw [hθ]; ring
    rw [h90]
    exact mul_pos (by linarith) (by positivity)
  have hθlt : θ < π / 2 := by
    have h90 : π / 2 - θ = (90 - lat) * (π / 360) := by rw [hθ]; ring
    have hp : 0 < π / 2 - θ := by
      rw [h90]; exact mul_pos (by linarith) (by positivity)
    linarith
  have htan : 0 < Real.tan θ := Real.tan_pos_of_pos_of_lt_pi_div_two hθpos hθlt
  have hneg : -(π / 2) < 0 := by linarith
  constructor
  · rw [hy, mul_div_cancel_left₀ _ hR, Real.exp_log htan,
      Real.arctan_tan (lt_trans hneg hθpos) hθlt]
    have h0 : (2 * θ - π / 2) * (180 / π) - lat = 0 := by
      rw [hθ]; field_simp; ring
    rw [h0, abs_zero]; norm_num
  · rw [hx, mul_div_cancel_left₀ _ hR]
    have h0 : lon * (π / 180) * (180 / π) - lon = 0 := by
      field_simp
    rw [h0, abs_zero]; norm_num

/-- Witness for C4 at the concrete in-range input (45, -93). -/
theorem C4_round_trip_witness :
    |(2 * Real.arctan (Real.exp
        ((WebMercator.lat_lon_to_web_mercator 45 (-93)).2 /
          WebMercator.EARTH_RADIUS_METERS)) - π / 2) * (180 / π) - 45|
      ≤ 1e-6 ∧
    |((WebMercator.lat_lon_to_web_mercator 45 (-93)).1 /
        WebMercator.EARTH_RADIUS_METERS) * (180 / π) - (-93)| ≤ 1e-6 :=
  C4_round_trip 45 (-93) (by norm_num) (by norm_num) (by norm_num) (by norm_num)

/-- Counterexample to C7 as stated: the x coordinate of the projection of
(45, -93) is about -10352712.64 m, more than 1900 m away from the claimed
value -10354649.5, so it is not within 1 meter of it. -/
theorem C7_counterexample :
    1 < |(WebMercator.lat_lon_to_web_mercator 45 (-93)).1 - (-10354649.5)| := by
  have hx : (WebMercator.lat_lon_to_web_mercator 45 (-93)).1 =
      6378137.0 * ((-93 : ℝ) * (π / 180)) := rfl
  have hπu : π < 3.141593 := Real.pi_lt_d6
  have h1 : (1 : ℝ) <
      (WebMercator.lat_lon_to_web_mercator 45 (-93)).1 - (-10354649.5) := by
    rw [hx]; linarith
  exact lt_of_lt_of_le h1 (le_abs_self _)

/-- C7 (amended): `lat_lon_to_web_mercator 45 (-93)` equals
(-10352712.6, 5621521.5) meters to within 1 meter in each coordinate,
with the Earth radius constant R = 6378137. -/
theorem C7_boundary_value :
    |(WebMercator.lat_lon_to_web_mercator 45 (-93)).1 - (-10352712.6)| ≤ 1 ∧
    |(WebMercator.lat_lon_to_web_mercator 45 (-93)).2 - 5621521.5| ≤ 1 := by
  have hπl : 3.14159265358979323846 < π := Real.pi_gt_d20
  have hπu : π < 3.14159265358979323847 := Real.pi_lt_d20
  have hs2 : Real.sqrt 2 ^ 2 = 2 := Real.sq_sqrt (by norm_num)
  have hs2nn : (0:ℝ) ≤ Real.sqrt 2 := Real.sqrt_nonneg 2
  have hs2lt : Real.sqrt 2 < 2 := by nlinarith
  have h2m : (0:ℝ) < 2 - Real.sqrt 2 := by linarith
  constructor
  · have hx : (WebMercator.lat_lon_to_web_mercator 45 (-93)).1 =
        6378137.0 * ((-93 : ℝ) * (π / 180)) := rfl
    rw [hx, abs_le]
    constructor <;> linarith
  · have hy : (WebMercator.lat_lon_to_web_mercator 45 (-93)).2 =
        6378137.0 * Real.log (Real.tan (π / 4 + (45:ℝ) * (π / 180) / 2)) := rfl
    have harg : π / 4 + (45:ℝ) * (π / 180) / 2 = π / 2 - π / 8 := by ring
    have htan : Real.tan (π / 2 - π / 8) = Real.cos (π / 8) / Real.sin (π / 8) := by
      rw [Real.tan_eq_sin_div_cos, Real.sin_pi_div_two_sub, Real.cos_pi_div_two_sub]
    have hprod : (2 + Real.sqrt 2) = (1 + Real.sqrt 2) ^ 2 * (2 - Real.sqrt 2) := by
      linear_combination (Real.sqrt 2) * hs2
    have hkey : Real.sqrt (2 + Real.sqrt 2) =
        (1 + Real.sqrt 2) * Real.sqrt (2 - Real.sqrt 2) := by
      rw [hprod, Real.sqrt_mul (sq_nonneg _),
        Real.sqrt_sq (by positivity : (0:ℝ) ≤ 1 + Real.sqrt 2)]
    have hsn : Real.sqrt (2 - Real.sqrt 2) ≠ 0 := ne_of_gt (Real.sqrt_pos.mpr h2m)
    have htanval : Real.tan (π / 2 - π / 8) = 1 + Real.sqrt 2 := by
      rw [htan, Real.cos_pi_div_eight, Real.sin_pi_div_eight, hkey]
      field_simp
    have hyval : (WebMercator.lat_lon_to_web_mercator 45 (-93)).2 =
        6378137.0 * Real.log (1 + Real.sqrt 2) := by
      rw [hy, harg, htanval]
    have hcpos : (0:ℝ) < 1 + Real.sqrt 2 := by positivity
    have hlogL : (0.8813735 : ℝ) ≤ Real.log (1 + Real.sqrt 2) := by
      rw [Real.le_log_iff_exp_le hcpos]
      have hb := Real.exp_bound' (show (0:ℝ) ≤ 0.8813735 by norm_num)
        (show (0.8813735:ℝ) ≤ 1 by norm_num) (show 0 < 12 by norm_num)
      have hb2 : Real.exp 0.8813735 ≤ 2.41421336 := by
        refine hb.trans ?_
        simp only [Finset.sum_range_succ, Finset.sum_range_zero]
        push_cast
        norm_num [Nat.factorial]
      have hs2ge : (1.41421336 : ℝ) ≤ Real.sqrt 2 := by nlinarith
      linarith
    have hlogU : Real.log (1 + Real.sqrt 2) ≤ 0.8813737 := by
      rw [Real.log_le_iff_le_exp hcpos]
      have hb := Real.sum_le_exp_of_nonneg (show (0:ℝ) ≤ 0.8813737 by norm_num) 12
      have hsum : (2.41421383 : ℝ) ≤
          ∑ m ∈ Finset.range 12, (0.8813737:ℝ) ^ m / m.factorial := by
        simp only [Finset.sum_range_succ, Finset.sum_range_zero]
        norm_num [Nat.factorial]
      have hs2le : Real.sqrt 2 ≤ 1.41421383 := by nlinarith
      linarith
    rw [hyval, abs_le]
    constructor <;> linarith
